import Mathlib

/-!
Shallow embedding of `src/oc05.py` (zerynth/lib-xinabox-oc05), a driver for
the PCA9685-based OC05 8-channel servo controller, together with theorems
checking the specification's claims against it.

Modelling conventions:

* Python integers are `Int`; values that land on the wire (register
  addresses and single data bytes) are `Nat` after the source's own clamps
  make them provably nonnegative.
* The platform dialect (Zerynth) evaluates `/` between integers as integer
  division.  Every division reachable in the claims has nonnegative
  operands, where the floor / truncation / Euclidean conventions coincide,
  so we use Lean's `Int` division.  Division by zero raises
  `ZeroDivisionError` in Python, hence `pydiv` returns `Except`.
* Bus traffic is modelled as the list of events (`write register value`,
  `sleep ms`) a call emits; an external fallible bus executes such a list
  (`runEvents`), stopping at the first failing write, mirroring the
  `try ... except ... raise` blocks of the source.
* `self.freqency` (line 156, a misspelling of `frequency`) and `math.abs`
  (line 170, the `math` module has no `abs`) do not exist; attribute lookup
  on them raises `AttributeError`, which the embedding reproduces.
-/

namespace OC05

/-- Python exceptions that the driver's own code can raise (bus errors are
external and are modelled separately by the bus parameter of `runEvents`). -/
inductive PyErr where
  | zeroDivisionError
  | attributeError (missing : String)
deriving DecidableEq, Repr

/-- Register-map constants, source lines 21–38. -/
def PCA9685_I2C_ADDR : Nat := 0x78

def PCA9685_PRESCALE : Nat := 0xFE

def PCA9685_MODE_1 : Nat := 0x00

def PCA9685_MODE_1_DEF : Nat := 0x01

def PCA9685_MODE_2 : Nat := 0x01

def PCA9685_MODE_2_DEF : Nat := 0x04

def PCA9685_SLEEP : Nat := PCA9685_MODE_1_DEF ||| 0x10

def PCA9685_WAKE : Nat := PCA9685_MODE_1_DEF &&& 0xEF

def PCA9685_RESTART : Nat := PCA9685_WAKE ||| 0x80

def PCA9685_ALL_LED_ON_L : Nat := 0xFA

def PCA9685_ALL_LED_ON_H : Nat := 0xFB

def PCA9685_ALL_LED_OFF_L : Nat := 0xFC

def PCA9685_ALL_LED_OFF_H : Nat := 0xFD

def PinRegDistance : Nat := 4

def PCA9685_LED8_ON_L : Nat := 0x26

def PCA9685_LED8_ON_H : Nat := 0x27

def PCA9685_LED8_OFF_L : Nat := 0x28

def PCA9685_LED8_OFF_H : Nat := 0x29

/-- Python `/` on integers: raises `ZeroDivisionError` on a zero divisor.
All divisions reachable under the claims' hypotheses have nonnegative
operands, where all integer-division conventions agree. -/
def pydiv (a b : Int) : Except PyErr Int :=
  if b = 0 then .error .zeroDivisionError else .ok (a / b)

/-- Driver state: the one numeric attribute the methods read and write.
The class attribute `frequency = 0` (line 56) is its initial value;
`__init__` does not assign it. -/
structure OC05State where
  frequency : Int
deriving DecidableEq, Repr

/-- A freshly constructed OC05 object: `frequency` still holds the
class-level initial value `0` (line 56). -/
def initialState : OC05State := ⟨0⟩

/-- Python attribute lookup on the OC05 instance.  `frequency` is the only
numeric attribute the class or its methods define; any other name (such as
the misspelled `freqency` on line 156) raises `AttributeError`. -/
def OC05State.getattr (s : OC05State) (name : String) : Except PyErr Int :=
  if name = "frequency" then .ok s.frequency else .error (.attributeError name)

/-- Lookup of `math.abs` (line 170): the `math` module has no attribute
`abs` (only `fabs`/`floor`/...), so the call raises `AttributeError`
before its argument is used. -/
def math_abs (speed : Int) : Except PyErr Int :=
  .error (.attributeError "abs")

/-- Source lines 179–180:
`int(math.floor((25000000 / (freq * 4096))) - 1)`.
With integer operands the division is already integral, so `math.floor`
and the final `int` are the identity. -/
def calcFreqPrescaler (freq : Int) : Except PyErr Int := do
  let q ← pydiv 25000000 (freq * 4096)
  return q - 1

/-- Source lines 182–183:
`((offset * 1000) / (1000 / freq) * 4096) / 10000`,
evaluated left to right, each `/` fallible. -/
def calcFreqOffset (freq offset : Int) : Except PyErr Int := do
  let d ← pydiv 1000 freq
  let q ← pydiv (offset * 1000) d
  pydiv (q * 4096) 10000

/-- Source lines 185–190.  The Python parameters `offsetStart`/`offsetEnd`
are percentages, immediately reassigned to tick offsets; the embedding
suffixes the incoming percentages with `0`.  The final `int(...)` is the
identity on integers. -/
def degrees180ToPWM (freq degrees offsetStart0 offsetEnd0 : Int) :
    Except PyErr Int := do
  let offsetEnd ← calcFreqOffset freq offsetEnd0
  let offsetStart ← calcFreqOffset freq offsetStart0
  let spread := offsetEnd - offsetStart
  let q ← pydiv (degrees * spread) 180
  let calcOffset := q + offsetStart
  return max offsetStart (min offsetEnd calcOffset)

/-- Source lines 112–141.  Clamps the pin to [1,8] and each step to
[0,4095], then issues four single-byte writes at the channel's register
block.  The clamps make all four addresses and values nonnegative, so they
are carried as `Nat`.  The method assigns no attribute, so the state is
returned unchanged; bus errors are external (`runEvents`). -/
def setPinPulseRange (s : OC05State) (pinNum onStep offStep : Int) :
    OC05State × List (Nat × Nat) :=
  let pinNumber : Nat := (max 1 (min 8 pinNum)).toNat
  let pinOffset : Nat := PinRegDistance * (pinNumber - 1)
  let onStepC : Nat := (max 0 (min 4095 onStep)).toNat
  let offStepC : Nat := (max 0 (min 4095 offStep)).toNat
  (s, [ (pinOffset + PCA9685_LED8_ON_L,  onStepC &&& 0xFF),
        (pinOffset + PCA9685_LED8_ON_H,  onStepC >>> 8),
        (pinOffset + PCA9685_LED8_OFF_L, offStepC &&& 0xFF),
        (pinOffset + PCA9685_LED8_OFF_H, offStepC >>> 8) ])

/-- Source lines 96–110: clamp the channel to [1,8] and the angle to
[0,180], convert via `degrees180ToPWM` at the stored frequency with the
5%–25% duty range, and delegate to `setPinPulseRange` with `onStep = 0`. -/
def setServoPosition (s : OC05State) (channelNum degrees : Int) :
    Except PyErr (OC05State × List (Nat × Nat)) := do
  let channelNumC := max 1 (min 8 channelNum)
  let degreesC := max 0 (min 180 degrees)
  let pwm ← degrees180ToPWM s.frequency degreesC 5 25
  return setPinPulseRange s channelNumC 0 pwm

/-- Source lines 143–177.  Note the reads of the nonexistent attribute
`self.freqency` (line 156) and of the nonexistent `math.abs` (line 170);
the first lookup raises before any bus write.  The boolean `isReverse`
is inlined as `speed < 0`. -/
def setCRServoPosition (s : OC05State) (channelNum speed : Int) :
    Except PyErr (OC05State × List (Nat × Nat)) := do
  let channelnum := max 1 (min 8 channelNum)
  let fr ← s.getattr "freqency"
  let offsetStart ← calcFreqOffset fr 5
  let offsetMid ← calcFreqOffset fr 15
  let offsetEnd ← calcFreqOffset fr 25
  if speed = 0 then
    return setPinPulseRange s channelnum 0 offsetMid
  else
    let spread := if speed < 0 then offsetMid - offsetStart else offsetEnd - offsetMid
    let speedA ← math_abs speed
    let calcOffset ← pydiv (speedA * spread) 100
    let pwm := if speed < 0 then offsetMid - calcOffset else offsetMid + calcOffset
    return setPinPulseRange s channelnum 0 pwm

/-- Source lines 75–80: the `if/elif/else` clamp of the requested output
frequency into [40,1000], assigned to `self.frequency`. -/
def initFrequency (outFreq : Int) : Int :=
  if outFreq > 1000 then 1000 else if outFreq < 40 then 40 else outFreq

/-- One element of the bus traffic `init` produces: a single-byte register
write, or the blocking `sleep(1000)` between wake and restart. -/
inductive Ev where
  | write (reg val : Nat)
  | sleepms (ms : Nat)
deriving DecidableEq, Repr

/-- Source lines 65–94: store the clamped frequency, compute the
prescaler, then emit the fixed sequence — MODE_1←SLEEP, PRESCALE,
zero the four `PCA9685_LED8_*` registers (0x26–0x29), MODE_1←WAKE,
`sleep(1000)`, MODE_1←RESTART.  The prescaler of a clamped frequency is
nonnegative, so its wire byte is its `toNat`. -/
def init (outFreq : Int) : Except PyErr (OC05State × List Ev) := do
  let frequency := initFrequency outFreq
  let prescaler ← calcFreqPrescaler frequency
  return (⟨frequency⟩,
    [ .write PCA9685_MODE_1 PCA9685_SLEEP,
      .write PCA9685_PRESCALE prescaler.toNat,
      .write PCA9685_LED8_ON_L 0x00,
      .write PCA9685_LED8_ON_H 0x00,
      .write PCA9685_LED8_OFF_L 0x00,
      .write PCA9685_LED8_OFF_H 0x00,
      .write PCA9685_MODE_1 PCA9685_WAKE,
      .sleepms 1000,
      .write PCA9685_MODE_1 PCA9685_RESTART ])

/-- The register writes contained in an event list, in order. -/
def writesOf : List Ev → List (Nat × Nat)
  | [] => []
  | .write r v :: rest => (r, v) :: writesOf rest
  | .sleepms _ :: rest => writesOf rest

/-- Execute an event list against a fallible bus (`bus n r v` is the
outcome of the `n`-th write call, counting from `n`).  Mirrors the
source's `try` blocks: the first failing write aborts everything after it
and the error is surfaced unchanged; `sleep` cannot fail.  Returns the
executed prefix and the surfaced error, if any. -/
def runEvents {ε : Type} (bus : Nat → Nat → Nat → Except ε Unit) :
    Nat → List Ev → List Ev × Option ε
  | _, [] => ([], none)
  | n, .write r v :: rest =>
    match bus n r v with
    | .error e => ([], some e)
    | .ok _ =>
      match runEvents bus (n + 1) rest with
      | (es, res) => (.write r v :: es, res)
  | n, .sleepms m :: rest =>
    match runEvents bus n rest with
    | (es, res) => (.sleepms m :: es, res)

/-- The channel's register-block base address, as the claims state it:
`0x26 + 4 * (c - 1)` after clamping `c` into [1,8]. -/
def channelBase (c : Int) : Nat := 0x26 + 4 * ((max 1 (min 8 c)).toNat - 1)

/-- A tick value clamped into [0,4095], as a `Nat`. -/
def clamp4095 (v : Int) : Nat := (max 0 (min 4095 v)).toNat

/-- Value-level duty-cycle offset for a valid frequency (spec section 4.5),
over `Nat`; `calcFreqOffset_natCast` connects it to `calcFreqOffset`. -/
def calcFreqOffsetN (f p : Nat) : Nat :=
  p * 1000 / (1000 / f) * 4096 / 10000

/-- Value-level tick of `degrees180ToPWM f d 5 25` for a valid frequency
and a clamped angle `d`; `degrees180ToPWM_natCast` connects it to the
fallible source function. -/
def servoTickN (f d : Nat) : Nat :=
  let endO := calcFreqOffsetN f 25
  let startO := calcFreqOffsetN f 5
  max startO (min endO (d * (endO - startO) / 180 + startO))

/-- A bus that NACKs the second write call (index 1) and accepts every
other one; used to witness the abort behaviour of `init`. -/
def busFailSecond : Nat → Nat → Nat → Except String Unit :=
  fun n _ _ => if n = 1 then .error "nack" else .ok ()

/-- The event list `init 60` produces (prescaler 100). -/
def initTrace60 : List Ev :=
  [ .write 0x00 0x11, .write 0xFE 100,
    .write 0x26 0x00, .write 0x27 0x00, .write 0x28 0x00, .write 0x29 0x00,
    .write 0x00 0x01, .sleepms 1000, .write 0x00 0x81 ]

/-! Helper lemmas (shared infrastructure, not claim theorems). -/

lemma pydiv_natCast (a b : Nat) (hb : b ≠ 0) :
    pydiv (a : Int) (b : Int) = .ok ((a / b : Nat) : Int) := by
  simp [pydiv, hb, Int.natCast_div]

lemma ok_bind {ε α β : Type} (a : α) (f : α → Except ε β) :
    (Except.ok a >>= f : Except ε β) = f a := rfl

lemma error_bind {ε α β : Type} (e : ε) (f : α → Except ε β) :
    (Except.error e >>= f : Except ε β) = Except.error e := rfl

lemma nat_lt_div_succ_mul (a b : Nat) (hb : 0 < b) : a < (a / b + 1) * b := by
  have h1 := Nat.div_add_mod a b
  have h2 : a % b < b := Nat.mod_lt _ hb
  have hc : (a / b + 1) * b = b * (a / b) + b := by ring
  omega

lemma land255_eq_mod (v : Nat) : v &&& 0xFF = v % 256 := by
  have := Nat.and_pow_two_sub_one_eq_mod v 8
  norm_num at this
  simpa using this

lemma shiftRight8_eq_div (v : Nat) : v >>> 8 = v / 256 := by
  have := Nat.shiftRight_eq_div_pow v 8
  norm_num at this
  simpa using this

lemma initFrequency_bounds (outFreq : Int) :
    40 ≤ initFrequency outFreq ∧ initFrequency outFreq ≤ 1000 := by
  unfold initFrequency
  split
  · omega
  · split <;> omega

lemma init_eq (outFreq : Int) :
    init outFreq = .ok (⟨initFrequency outFreq⟩,
      [ .write 0x00 0x11,
        .write 0xFE (25000000 / (initFrequency outFreq * 4096) - 1).toNat,
        .write 0x26 0x00, .write 0x27 0x00, .write 0x28 0x00, .write 0x29 0x00,
        .write 0x00 0x01, .sleepms 1000, .write 0x00 0x81 ]) := by
  have hb := initFrequency_bounds outFreq
  have hne : ¬ (initFrequency outFreq * 4096 = (0 : Int)) := by omega
  simp [init, calcFreqPrescaler, pydiv, hne, PCA9685_MODE_1, PCA9685_PRESCALE,
    PCA9685_SLEEP, PCA9685_WAKE, PCA9685_RESTART, PCA9685_MODE_1_DEF,
    PCA9685_LED8_ON_L, PCA9685_LED8_ON_H, PCA9685_LED8_OFF_L, PCA9685_LED8_OFF_H]

lemma calcFreqOffsetN_le (f : Nat) {p q : Nat} (h : p ≤ q) :
    calcFreqOffsetN f p ≤ calcFreqOffsetN f q := by
  unfold calcFreqOffsetN
  exact Nat.div_le_div_right (Nat.mul_le_mul_right _ (Nat.div_le_div_right (Nat.mul_le_mul_right _ h)))

lemma calcFreqOffset_natCast (f p : Nat) (h40 : 40 ≤ f) (h1000 : f ≤ 1000) :
    calcFreqOffset (f : Int) (p : Int) = .ok ((calcFreqOffsetN f p : Nat) : Int) := by
  have hf : f ≠ 0 := by omega
  have hd : (1000 : Nat) / f ≠ 0 :=
    Nat.pos_iff_ne_zero.mp (Nat.div_pos h1000 (by omega))
  have e1 : pydiv 1000 (f : Int) = .ok ((1000 / f : Nat) : Int) := by
    have := pydiv_natCast 1000 f hf
    simpa using this
  have e2 : pydiv ((p : Int) * 1000) ((1000 / f : Nat) : Int)
      = .ok ((p * 1000 / (1000 / f) : Nat) : Int) := by
    have := pydiv_natCast (p * 1000) (1000 / f) hd
    push_cast at this
    simpa using this
  have e3 : pydiv (((p * 1000 / (1000 / f) : Nat) : Int) * 4096) 10000
      = .ok ((calcFreqOffsetN f p : Nat) : Int) := by
    have := pydiv_natCast (p * 1000 / (1000 / f) * 4096) 10000 (by norm_num)
    push_cast at this
    simpa [calcFreqOffsetN] using this
  simp only [calcFreqOffset, e1, ok_bind, e2, e3]

lemma servoTickN_mono (f : Nat) {d1 d2 : Nat} (h : d1 ≤ d2) :
    servoTickN f d1 ≤ servoTickN f d2 := by
  unfold servoTickN
  have hq : d1 * (calcFreqOffsetN f 25 - calcFreqOffsetN f 5) / 180 + calcFreqOffsetN f 5
      ≤ d2 * (calcFreqOffsetN f 25 - calcFreqOffsetN f 5) / 180 + calcFreqOffsetN f 5 :=
    Nat.add_le_add_right (Nat.div_le_div_right (Nat.mul_le_mul_right _ h)) _
  exact max_le_max (le_refl _) (min_le_min (le_refl _) hq)

lemma servoTickN_zero (f : Nat) : servoTickN f 0 = calcFreqOffsetN f 5 := by
  have hse : calcFreqOffsetN f 5 ≤ calcFreqOffsetN f 25 := calcFreqOffsetN_le f (by norm_num)
  unfold servoTickN
  simp [min_eq_right hse]

lemma servoTickN_180 (f : Nat) : servoTickN f 180 = calcFreqOffsetN f 25 := by
  have hse : calcFreqOffsetN f 5 ≤ calcFreqOffsetN f 25 := calcFreqOffsetN_le f (by norm_num)
  simp only [servoTickN]
  rw [Nat.mul_div_cancel_left _ (by norm_num : (0:Nat) < 180), Nat.sub_add_cancel hse]
  simp [max_eq_right hse]

lemma servoTickN_bounds (f d : Nat) :
    calcFreqOffsetN f 5 ≤ servoTickN f d ∧ servoTickN f d ≤ calcFreqOffsetN f 25 := by
  have hse : calcFreqOffsetN f 5 ≤ calcFreqOffsetN f 25 := calcFreqOffsetN_le f (by norm_num)
  unfold servoTickN
  exact ⟨le_max_left _ _, max_le hse (min_le_left _ _)⟩

lemma degrees180ToPWM_natCast (f d : Nat) (h40 : 40 ≤ f) (h1000 : f ≤ 1000) :
    degrees180ToPWM (f : Int) (d : Int) 5 25 = .ok ((servoTickN f d : Nat) : Int) := by
  have hse : calcFreqOffsetN f 5 ≤ calcFreqOffsetN f 25 := calcFreqOffsetN_le f (by norm_num)
  have h25 : calcFreqOffset (f : Int) 25 = .ok ((calcFreqOffsetN f 25 : Nat) : Int) := by
    have := calcFreqOffset_natCast f 25 h40 h1000
    simpa using this
  have h5 : calcFreqOffset (f : Int) 5 = .ok ((calcFreqOffsetN f 5 : Nat) : Int) := by
    have := calcFreqOffset_natCast f 5 h40 h1000
    simpa using this
  have hcast : ((calcFreqOffsetN f 25 : Nat) : Int) - ((calcFreqOffsetN f 5 : Nat) : Int)
      = ((calcFreqOffsetN f 25 - calcFreqOffsetN f 5 : Nat) : Int) := by
    rw [Nat.cast_sub hse]
  have hq : pydiv ((d : Int) * (((calcFreqOffsetN f 25 : Nat) : Int) - ((calcFreqOffsetN f 5 : Nat) : Int))) 180
      = .ok ((d * (calcFreqOffsetN f 25 - calcFreqOffsetN f 5) / 180 : Nat) : Int) := by
    rw [hcast]
    have := pydiv_natCast (d * (calcFreqOffsetN f 25 - calcFreqOffsetN f 5)) 180 (by norm_num)
    push_cast at this
    simpa using this
  simp only [degrees180ToPWM, h25, ok_bind, h5, hq, Except.map_ok, servoTickN]
  rw [Nat.cast_max, Nat.cast_min, Nat.cast_add]
  rfl

lemma setPinPulseRange_clamps (s : OC05State) (pinNum onStep offStep : Int) :
    setPinPulseRange s pinNum onStep offStep
      = setPinPulseRange s (max 1 (min 8 pinNum)) (max 0 (min 4095 onStep))
          (max 0 (min 4095 offStep)) := by
  simp only [setPinPulseRange]
  rw [show max 1 (min 8 (max 1 (min 8 pinNum))) = max 1 (min 8 pinNum) from by omega,
    show max 0 (min 4095 (max 0 (min 4095 onStep))) = max 0 (min 4095 onStep) from by omega,
    show max 0 (min 4095 (max 0 (min 4095 offStep))) = max 0 (min 4095 offStep) from by omega]

lemma setServoPosition_eq (f : Nat) (h40 : 40 ≤ f) (h1000 : f ≤ 1000) (c d : Int) :
    setServoPosition ⟨(f : Int)⟩ c d
      = .ok (setPinPulseRange ⟨(f : Int)⟩ c 0
          ((servoTickN f (max 0 (min 180 d)).toNat : Nat) : Int)) := by
  have hdc : (max 0 (min 180 d)) = (((max 0 (min 180 d)).toNat : Nat) : Int) := by omega
  have hb := degrees180ToPWM_natCast f (max 0 (min 180 d)).toNat h40 h1000
  rw [← hdc] at hb
  simp only [setServoPosition, hb, ok_bind]
  simp only [setPinPulseRange]
  rw [show max 1 (min 8 (max 1 (min 8 c))) = max 1 (min 8 c) from by omega]
  rfl

lemma runEvents_fail {ε : Type} (bus : Nat → Nat → Nat → Except ε Unit) (e : ε) :
    ∀ (evs : List Ev) (n k : Nat),
      (∀ i, i < k → bus (n + i) ((writesOf evs).getD i (0, 0)).1
          ((writesOf evs).getD i (0, 0)).2 = .ok ()) →
      bus (n + k) ((writesOf evs).getD k (0, 0)).1 ((writesOf evs).getD k (0, 0)).2
          = .error e →
      k < (writesOf evs).length →
      (runEvents bus n evs).2 = some e ∧
        writesOf (runEvents bus n evs).1 = (writesOf evs).take k := by
  intro evs
  induction evs with
  | nil =>
    intro n k hok hfail hk
    simp [writesOf] at hk
  | cons ev rest ih =>
    cases ev with
    | write r v =>
      intro n k hok hfail hk
      cases k with
      | zero =>
        have hf : bus n r v = .error e := by simpa [writesOf] using hfail
        simp [runEvents, hf, writesOf]
      | succ k =>
        have h0 : bus n r v = .ok () := by
          have := hok 0 (Nat.succ_pos k)
          simpa [writesOf] using this
        have hok2 : ∀ i, i < k → bus (n + 1 + i) ((writesOf rest).getD i (0, 0)).1
            ((writesOf rest).getD i (0, 0)).2 = .ok () := by
          intro i hi
          have h := hok (i + 1) (Nat.succ_lt_succ hi)
          have hn : n + (i + 1) = n + 1 + i := by omega
          simpa [writesOf, hn] using h
        have hfail2 : bus (n + 1 + k) ((writesOf rest).getD k (0, 0)).1
            ((writesOf rest).getD k (0, 0)).2 = .error e := by
          have hn : n + (k + 1) = n + 1 + k := by omega
          simpa [writesOf, hn] using hfail
        have hk2 : k < (writesOf rest).length := by simpa [writesOf] using hk
        obtain ⟨h1, h2⟩ := ih (n + 1) k hok2 hfail2 hk2
        cases hre : runEvents bus (n + 1) rest with
        | mk es res =>
          rw [hre] at h1 h2
          simp only at h1 h2
          simp [runEvents, h0, hre, writesOf, h1, h2]
    | sleepms m =>
      intro n k hok hfail hk
      obtain ⟨h1, h2⟩ := ih n k (by simpa [writesOf] using hok)
        (by simpa [writesOf] using hfail) (by simpa [writesOf] using hk)
      cases hre : runEvents bus n rest with
      | mk es res =>
        rw [hre] at h1 h2
        simp only at h1 h2
        simp [runEvents, hre, writesOf, h1, h2]

/-! Claim theorems. -/

/-- C1: `setPinPulseRange` clamps the channel into [1,8] and each step
into [0,4095], and issues exactly four single-byte writes, in the fixed
order onStep-low, onStep-high, offStep-low, offStep-high, at consecutive
registers starting at base `0x26 + 4*(c-1)`; the low byte is the clamped
value mod 256 (`v &&& 0xFF`), the high byte its quotient by 256
(`v >>> 8`); bases are strictly increasing and non-overlapping across
channels; every written value fits in one byte. -/
theorem setPinPulseRange_spec (s : OC05State) (c onStep offStep c1 c2 : Int)
    (h1 : 1 ≤ c1) (h2 : c1 < c2) (h3 : c2 ≤ 8) :
    (setPinPulseRange s c onStep offStep).2
        = [ (channelBase c,     clamp4095 onStep % 256),
            (channelBase c + 1, clamp4095 onStep / 256),
            (channelBase c + 2, clamp4095 offStep % 256),
            (channelBase c + 3, clamp4095 offStep / 256) ] ∧
    channelBase c = 0x26 + 4 * ((max 1 (min 8 c)).toNat - 1) ∧
    channelBase c1 + 3 < channelBase c2 ∧
    ∀ w ∈ (setPinPulseRange s c onStep offStep).2, w.2 < 256 := by
  have hlist : (setPinPulseRange s c onStep offStep).2
      = [ (channelBase c,     clamp4095 onStep % 256),
          (channelBase c + 1, clamp4095 onStep / 256),
          (channelBase c + 2, clamp4095 offStep % 256),
          (channelBase c + 3, clamp4095 offStep / 256) ] := by
    simp only [setPinPulseRange, channelBase, clamp4095, PinRegDistance,
      PCA9685_LED8_ON_L, PCA9685_LED8_ON_H, PCA9685_LED8_OFF_L, PCA9685_LED8_OFF_H,
      land255_eq_mod, shiftRight8_eq_div, List.cons.injEq, Prod.mk.injEq,
      and_true, true_and]
    omega
  have hbnd : ∀ v : Int, clamp4095 v ≤ 4095 := by
    intro v
    unfold clamp4095
    omega
  refine ⟨hlist, rfl, by simp only [channelBase]; omega, ?_⟩
  have hon := hbnd onStep
  have hoff := hbnd offStep
  intro w hw
  rw [hlist] at hw
  fin_cases hw <;> dsimp only <;> omega

/-- C1 witness: concrete instance with an out-of-range channel (9 → 8) and
out-of-range steps (−5 → 0, 5000 → 4095), plus a base-separation instance
for channels 2 < 7. -/
theorem setPinPulseRange_spec_witness :
    (setPinPulseRange ⟨60⟩ 9 (-5) 5000).2
        = [ (channelBase 9,     clamp4095 (-5) % 256),
            (channelBase 9 + 1, clamp4095 (-5) / 256),
            (channelBase 9 + 2, clamp4095 5000 % 256),
            (channelBase 9 + 3, clamp4095 5000 / 256) ] ∧
    channelBase 2 + 3 < channelBase 7 := by
  have h := setPinPulseRange_spec ⟨60⟩ 9 (-5) 5000 2 7 (by norm_num) (by norm_num) (by norm_num)
  exact ⟨h.1, h.2.2.1⟩

/-- C2 counterexample: at input frequency 60 the third through sixth
writes of `init` go to registers 0x26–0x29 (the `PCA9685_LED8_*` block),
and no write in the whole sequence touches the ALL_LED register 0xFA the
claim names (nor, a fortiori, 0xFB–0xFD, since only 0x00, 0xFE and
0x26–0x29 occur). -/
theorem init_allLed_counterexample :
    (init 60).map (fun p => (writesOf p.2).map Prod.fst)
        = .ok [0x00, 0xFE, 0x26, 0x27, 0x28, 0x29, 0x00, 0x00] ∧
    (0xFA : Nat) ∉ [0x00, 0xFE, 0x26, 0x27, 0x28, 0x29, 0x00, 0x00] ∧
    PCA9685_ALL_LED_ON_L = 0xFA := by
  exact ⟨rfl, by decide, rfl⟩

/-- C2 amended: for every input frequency, `init` stores the clamped
frequency and performs exactly, in order: (1) mode register 0x00 ← SLEEP
(0x11), (2) prescaler register 0xFE ← `25000000/(freq*4096) − 1`,
(3) zeroing of the four channel-1 block registers 0x26/0x27/0x28/0x29
(the source's `PCA9685_LED8_*` constants — not the ALL_LED registers
0xFA–0xFD), (4) mode ← WAKE (0x01), (5) a blocking `sleep(1000)`,
(6) mode ← RESTART (0x81). -/
theorem init_sequence (outFreq : Int) :
    init outFreq = .ok (⟨initFrequency outFreq⟩,
      [ .write 0x00 0x11,
        .write 0xFE (25000000 / (initFrequency outFreq * 4096) - 1).toNat,
        .write 0x26 0x00, .write 0x27 0x00, .write 0x28 0x00, .write 0x29 0x00,
        .write 0x00 0x01, .sleepms 1000, .write 0x00 0x81 ]) :=
  init_eq outFreq

/-- C3: for every frequency in [40,1000], `calcFreqPrescaler` succeeds and
returns `floor(25000000/(f*4096)) − 1`: the first conjunct computes the
value from the `Nat` quotient, the last two characterise that quotient as
the floor of the exact ratio. -/
theorem calcFreqPrescaler_spec (f : Nat) (h40 : 40 ≤ f) (h1000 : f ≤ 1000) :
    calcFreqPrescaler (f : Int) = .ok (((25000000 / (f * 4096) : Nat) : Int) - 1) ∧
    25000000 / (f * 4096) * (f * 4096) ≤ 25000000 ∧
    25000000 < (25000000 / (f * 4096) + 1) * (f * 4096) := by
  have hne : (f * 4096 : Nat) ≠ 0 := by omega
  have h := pydiv_natCast 25000000 (f * 4096) hne
  push_cast at h
  refine ⟨?_, Nat.div_mul_le_self _ _, nat_lt_div_succ_mul _ _ (by omega)⟩
  simp only [calcFreqPrescaler, h, ok_bind]
  push_cast
  rfl

/-- C3 witness: `calcFreqPrescaler 60 = 100`, the spec's end-to-end
example. -/
theorem calcFreqPrescaler_spec_witness :
    calcFreqPrescaler 60 = .ok 100 ∧
    25000000 / ((60 : Nat) * 4096) * ((60 : Nat) * 4096) ≤ 25000000 := by
  have h := calcFreqPrescaler_spec 60 (by norm_num) (by norm_num)
  exact ⟨h.1.trans (by rfl), h.2.1⟩

/-- C4: for a stored frequency in [40,1000], `setServoPosition` writes the
tick `servoTickN`, which is non-decreasing in the angle, equals the
5%-duty offset at 0°, equals the 25%-duty offset at 180°, and always lies
in the [5%-offset, 25%-offset] range. -/
theorem setServoPosition_monotone (f : Nat) (c d1 d2 : Int)
    (h40 : 40 ≤ f) (h1000 : f ≤ 1000) (hd : d1 ≤ d2) :
    setServoPosition ⟨(f : Int)⟩ c d1
        = .ok (setPinPulseRange ⟨(f : Int)⟩ c 0
            ((servoTickN f (max 0 (min 180 d1)).toNat : Nat) : Int)) ∧
    servoTickN f (max 0 (min 180 d1)).toNat ≤ servoTickN f (max 0 (min 180 d2)).toNat ∧
    servoTickN f 0 = calcFreqOffsetN f 5 ∧
    servoTickN f 180 = calcFreqOffsetN f 25 ∧
    calcFreqOffsetN f 5 ≤ servoTickN f (max 0 (min 180 d1)).toNat ∧
    servoTickN f (max 0 (min 180 d1)).toNat ≤ calcFreqOffsetN f 25 := by
  refine ⟨setServoPosition_eq f h40 h1000 c d1, servoTickN_mono f (by omega),
    servoTickN_zero f, servoTickN_180 f,
    (servoTickN_bounds f _).1, (servoTickN_bounds f _).2⟩

/-- C4 witness: at 60 Hz, 90° ≤ 135° gives ticks 383 ≤ 511, and the write
equation holds at 90°. -/
theorem setServoPosition_monotone_witness :
    setServoPosition ⟨(60 : Int)⟩ 1 90
        = .ok (setPinPulseRange ⟨(60 : Int)⟩ 1 0
            ((servoTickN 60 (max 0 (min 180 (90 : Int))).toNat : Nat) : Int)) ∧
    servoTickN 60 (max 0 (min 180 (90 : Int))).toNat
        ≤ servoTickN 60 (max 0 (min 180 (135 : Int))).toNat := by
  have h := setServoPosition_monotone 60 1 90 135 (by norm_num) (by norm_num) (by norm_num)
  exact ⟨h.1, h.2.1⟩

/-- C5 (code bug): `setCRServoPosition` at speed 0 does not write
`(0, 15%-offset)` — it raises `AttributeError` on the nonexistent
attribute `freqency` (line 156) before reaching any bus write, even on an
initialised controller (frequency 60). -/
theorem setCRServoPosition_zero_attrError :
    setCRServoPosition ⟨60⟩ 1 0 = .error (.attributeError "freqency") := rfl

/-- C6 (code bug): `setCRServoPosition` at speeds 50 and −50 does not
produce ticks equidistant from the mid offset — both calls raise
`AttributeError` on the nonexistent attribute `freqency` before any
tick is computed or written. -/
theorem setCRServoPosition_pm50_attrError :
    setCRServoPosition ⟨60⟩ 1 50 = .error (.attributeError "freqency") ∧
    setCRServoPosition ⟨60⟩ 1 (-50) = .error (.attributeError "freqency") :=
  ⟨rfl, rfl⟩

/-- C7 counterexample: the stored frequency of a freshly constructed
controller is the class-level initial value 0, not 60 (60 is only the
default of `init`'s parameter). -/
theorem frequency_default_counterexample :
    initialState.frequency = 0 ∧ initialState.frequency ≠ 60 :=
  ⟨rfl, by decide⟩

/-- C7 amended: the stored frequency defaults to 0; `init` sets it to the
input clamped into [40,1000]; `setPinPulseRange`, `setServoPosition` and
`setCRServoPosition` leave the state unchanged whenever they return. -/
theorem frequency_state_spec (outFreq c d sp pn onStep offStep : Int) (s : OC05State) :
    initialState.frequency = 0 ∧
    initFrequency outFreq = max 40 (min 1000 outFreq) ∧
    40 ≤ initFrequency outFreq ∧ initFrequency outFreq ≤ 1000 ∧
    (init outFreq).map (fun p => p.1.frequency) = .ok (initFrequency outFreq) ∧
    (setPinPulseRange s pn onStep offStep).1 = s ∧
    (setServoPosition s c d).map Prod.fst = (setServoPosition s c d).map (fun _ => s) ∧
    (setCRServoPosition s c sp).map Prod.fst
        = (setCRServoPosition s c sp).map (fun _ => s) := by
  refine ⟨rfl, ?_, (initFrequency_bounds outFreq).1, (initFrequency_bounds outFreq).2,
    ?_, rfl, ?_, ?_⟩
  · unfold initFrequency
    split
    · omega
    · split <;> omega
  · rw [init_eq]
    rfl
  · cases h : degrees180ToPWM s.frequency (max 0 (min 180 d)) 5 25 with
    | error e => simp [setServoPosition, h, error_bind, Except.map]
    | ok pwm => simp [setServoPosition, h, ok_bind, Except.map, setPinPulseRange]
  · have hcr : setCRServoPosition s c sp = .error (.attributeError "freqency") := rfl
    rw [hcr]
    rfl

/-- C8: a bus failure at the k-th write of the `init` sequence (which has
exactly 8 writes) surfaces that same error and executes exactly the first
k writes — nothing after the failing write runs, with no retry. -/
theorem init_busFailure_aborts {ε : Type} (bus : Nat → Nat → Nat → Except ε Unit)
    (outFreq : Int) (st : OC05State) (evs : List Ev) (k : Nat) (e : ε)
    (hinit : init outFreq = .ok (st, evs))
    (hok : ∀ i, i < k → bus i ((writesOf evs).getD i (0, 0)).1
        ((writesOf evs).getD i (0, 0)).2 = .ok ())
    (hfail : bus k ((writesOf evs).getD k (0, 0)).1 ((writesOf evs).getD k (0, 0)).2
        = .error e)
    (hk : k < (writesOf evs).length) :
    (writesOf evs).length = 8 ∧
    (runEvents bus 0 evs).2 = some e ∧
    writesOf (runEvents bus 0 evs).1 = (writesOf evs).take k := by
  have hlen : (writesOf evs).length = 8 := by
    rw [init_eq] at hinit
    simp only [Except.ok.injEq, Prod.mk.injEq] at hinit
    obtain ⟨-, h2⟩ := hinit
    subst h2
    simp [writesOf]
  have hok0 : ∀ i, i < k → bus (0 + i) ((writesOf evs).getD i (0, 0)).1
      ((writesOf evs).getD i (0, 0)).2 = .ok () := by simpa using hok
  have hfail0 : bus (0 + k) ((writesOf evs).getD k (0, 0)).1
      ((writesOf evs).getD k (0, 0)).2 = .error e := by simpa using hfail
  obtain ⟨ha, hb⟩ := runEvents_fail bus e evs 0 k hok0 hfail0 hk
  exact ⟨hlen, ha, hb⟩

/-- C8 witness: a bus that NACKs the second write (the prescaler write,
step 2) makes `init 60` execute only the first write (MODE_1 ← SLEEP) and
surface the error "nack". -/
theorem init_busFailure_aborts_witness :
    (writesOf initTrace60).length = 8 ∧
    (runEvents busFailSecond 0 initTrace60).2 = some "nack" ∧
    writesOf (runEvents busFailSecond 0 initTrace60).1 = (writesOf initTrace60).take 1 := by
  refine init_busFailure_aborts busFailSecond 60 ⟨60⟩ initTrace60 1 "nack" rfl ?_ rfl (by decide)
  intro i hi
  interval_cases i
  rfl

/-- C9: out-of-range channels, angles and ticks are silently clamped, with
no validation-error path: `setServoPosition` at −10° behaves exactly as at
0° and is invariant under clamping its angle; `setPinPulseRange (−5, 5000)`
behaves exactly as `(0, 4095)` and writes the byte-split of `(0, 4095)`;
`setPinPulseRange` is invariant under clamping all three arguments, and
the clamped arguments lie in their valid domains; `setCRServoPosition` is
insensitive to clamping its speed (it treats every speed alike — in the
source as written it raises the same `AttributeError` before using it). -/
theorem clamping_spec (s : OC05State) (c onStep offStep d sp : Int) :
    setServoPosition s c (-10) = setServoPosition s c 0 ∧
    setServoPosition s c d = setServoPosition s c (max 0 (min 180 d)) ∧
    setPinPulseRange s c (-5) 5000 = setPinPulseRange s c 0 4095 ∧
    (setPinPulseRange s c (-5) 5000).2.map Prod.snd = [0, 0, 255, 15] ∧
    setPinPulseRange s c onStep offStep
        = setPinPulseRange s (max 1 (min 8 c)) (max 0 (min 4095 onStep))
            (max 0 (min 4095 offStep)) ∧
    (1 ≤ max 1 (min 8 c) ∧ max 1 (min 8 c) ≤ 8) ∧
    (0 ≤ max 0 (min 4095 onStep) ∧ max 0 (min 4095 onStep) ≤ 4095) ∧
    (0 ≤ max 0 (min 180 d) ∧ max 0 (min 180 d) ≤ 180) ∧
    setCRServoPosition s c sp = setCRServoPosition s c (max (-100) (min 100 sp)) := by
  refine ⟨rfl, ?_, rfl, rfl, setPinPulseRange_clamps s c onStep offStep,
    ⟨by omega, by omega⟩, ⟨by omega, by omega⟩, ⟨by omega, by omega⟩, rfl⟩
  simp only [setServoPosition]
  rw [show max 0 (min 180 (max 0 (min 180 d))) = max 0 (min 180 d) from by omega]

/-- C10: before `init` has ever run, the stored frequency is the
class-level initial value 0, and `setServoPosition` then raises
`ZeroDivisionError` (from `1000 / freq` in `calcFreqOffset`) without
writing any register. -/
theorem setServoPosition_uninit (c d : Int) :
    initialState.frequency = 0 ∧
    setServoPosition initialState c d = .error .zeroDivisionError :=
  ⟨rfl, rfl⟩

end OC05
